import Mathlib

/-!
# Verification of the TSDuck PSI/SI codec core

Shallow embedding of the PSI/SI binary codec core of this repository:

* `src/src/libtsduck/tsAbstractVCT.cpp` — the virtual-channel-table (VCT)
  section splitter/reassembler (`ts::AbstractVCT::serialize`,
  `ts::AbstractVCT::deserialize`, `addSection`, `fromXML`);
* `src/unnamed/part_001` — `ts::ECMRepetitionRateDescriptor`
  (serialize/deserialize);
* `src/unnamed/part_002` — `ts::AC3Descriptor` (serialize/deserialize/merge).

Bytes are modelled as `List Nat` with values kept below 256 by the writers
(`% 256`), machine integers as `Nat` with explicit truncation where the C++
types force it.  Helper classes of the repository that are not under `src/`
(the big-endian field accessors, `ts::DescriptorList`, `ts::Descriptor`,
`ts::AbstractDescriptor::serializeStart/serializeEnd`, section capacity
constants) are modelled from the spec, each marked as such in its doc
comment.
-/

namespace TSDuck

/-- A byte string: list of naturals, each written value reduced `% 256`. -/
abbrev Bytes := List Nat

/-! ## Field codec

Modelled from the spec (§4.1 Field Codec): fixed-width big-endian unsigned
integer reads/writes at byte offsets (`GetUInt16`, `PutUInt24`, ... of the
repository, whose source is not under `src/`). -/

/-- Modelled from the spec: `PutUInt8` — one byte, truncated to 8 bits. -/
def put8 (v : Nat) : Bytes := [v % 256]

/-- Modelled from the spec: `PutUInt16` — big-endian, truncated to 16 bits. -/
def put16 (v : Nat) : Bytes := [v / 256 % 256, v % 256]

/-- Modelled from the spec: `PutUInt24` — big-endian, truncated to 24 bits. -/
def put24 (v : Nat) : Bytes := [v / 65536 % 256, v / 256 % 256, v % 256]

/-- Modelled from the spec: `PutUInt32` — big-endian, truncated to 32 bits. -/
def put32 (v : Nat) : Bytes :=
  [v / 16777216 % 256, v / 65536 % 256, v / 256 % 256, v % 256]

/-- Modelled from the spec: one-byte read at an offset (`data[i]`). -/
def get8 (bs : Bytes) (i : Nat) : Nat := bs.getD i 0

/-- Modelled from the spec: `GetUInt16` — big-endian 16-bit read. -/
def get16 (bs : Bytes) (i : Nat) : Nat := 256 * get8 bs i + get8 bs (i + 1)

/-- Modelled from the spec: `GetUInt24` — big-endian 24-bit read. -/
def get24 (bs : Bytes) (i : Nat) : Nat :=
  65536 * get8 bs i + 256 * get8 bs (i + 1) + get8 bs (i + 2)

/-- Modelled from the spec: `GetUInt32` — big-endian 32-bit read. -/
def get32 (bs : Bytes) (i : Nat) : Nat :=
  16777216 * get8 bs i + 65536 * get8 bs (i + 1) + 256 * get8 bs (i + 2) + get8 bs (i + 3)

/-! ## Descriptors and descriptor lists -/

/-- One descriptor held by a `ts::DescriptorList`: tag and payload.
Modelled from the spec (§3): `Descriptor: {tag: u8, payload: bytes(≤255)}`,
wire form `tag:u8, length:u8, payload:length bytes`. -/
structure Descr where
  tag : Nat
  payload : Bytes
  deriving DecidableEq, Repr

/-- Encoded size of a descriptor (tag + length byte + payload). -/
def Descr.size (d : Descr) : Nat := 2 + d.payload.length

/-- Wire bytes of a descriptor (`tag, length, payload`). -/
def Descr.bytes (d : Descr) : Bytes := d.tag % 256 :: d.payload.length % 256 :: d.payload

/-- Modelled from the spec: `ts::DescriptorList::serialize(addr, size, start)`
(not under `src/`) — emit descriptors one at a time while each following
descriptor fits whole in the remaining space, i.e. truncation happens only at
a descriptor boundary, never mid-descriptor (spec §4.4).  Returns the emitted
bytes and the number of descriptors emitted. -/
def serializeDescs : List Descr → Nat → Bytes × Nat
  | [], _ => ([], 0)
  | d :: ds, cap =>
    if d.size ≤ cap then
      let r := serializeDescs ds (cap - d.size)
      (d.bytes ++ r.1, r.2 + 1)
    else ([], 0)

/-- Modelled from the spec: `ts::DescriptorList::lengthSerialize(addr, size,
start, reserved_bits, length_bits)` (not under `src/`) — a 2-byte field
holding the reserved bits shifted by the length width, or-ed with the byte
length of the emitted descriptors, followed by those descriptors; the
capacity `cap` includes the 2 bytes of the length field.  Returns the bytes
written and the index of the next descriptor to serialize. -/
def lengthSerialize (ds : List Descr) (start cap reserved lbits : Nat) : Bytes × Nat :=
  let r := serializeDescs (ds.drop start) (cap - 2)
  (put16 (Nat.lor r.1.length (reserved <<< lbits)) ++ r.1, start + r.2)

/-- Modelled from the spec: `ts::DescriptorList::add(data, size)` (not under
`src/`) — parse consecutive `tag, length, payload` records while at least a
2-byte header remains and the declared record fits in the remaining bytes. -/
def descListAdd (bs : Bytes) : List Descr :=
  if h : 2 ≤ bs.length then
    let dl := get8 bs 1
    if 2 + dl ≤ bs.length then
      ⟨get8 bs 0, (bs.drop 2).take dl⟩ :: descListAdd (bs.drop (2 + dl))
    else []
  else []
  termination_by bs.length
  decreasing_by simp only [List.length_drop]; omega

/-! ## The `ts::Descriptor` binary wrapper

Modelled from the spec (§3, §6): a descriptor is carried as raw bytes
`tag:u8, length:u8, payload`; it is valid when there are at least the two
header bytes and the declared length matches the available payload. -/

/-- Raw binary descriptor (`ts::Descriptor`, not under `src/`). -/
structure Descriptor where
  raw : Bytes
  deriving DecidableEq, Repr

/-- `ts::Descriptor::isValid()`: header present and declared length equal to
the actual payload size. -/
def Descriptor.isValid (d : Descriptor) : Bool :=
  decide (2 ≤ d.raw.length) && decide (get8 d.raw 1 + 2 = d.raw.length)

/-- `ts::Descriptor::tag()`. -/
def Descriptor.tag (d : Descriptor) : Nat := get8 d.raw 0

/-- `ts::Descriptor::payload()`. -/
def Descriptor.payload (d : Descriptor) : Bytes := d.raw.drop 2

/-- `ts::Descriptor::payloadSize()`. -/
def Descriptor.payloadSize (d : Descriptor) : Nat := d.raw.length - 2

/-- Modelled from the spec: `serializeStart`/`serializeEnd` of
`ts::AbstractDescriptor` (not under `src/`) — emit the tag, a placeholder
length byte, then the payload; the length byte is patched after emission;
if the total size would exceed 257 bytes the trailing data is silently
truncated to fit (spec §4.2, §7 CapacityExceeded). -/
def serializeEnd (tag : Nat) (payload : Bytes) : Descriptor :=
  let p := payload.take 255
  ⟨tag % 256 :: p.length % 256 :: p⟩

/-! ## `ts::ECMRepetitionRateDescriptor` (src/unnamed/part_001)

The descriptor tag `DID_ECM_REPETITION_RATE` is a constant of the
repository not under `src/`; modelled from the spec scenario
("a descriptor tag=0xD9"). -/

/-- Modelled from the spec: the `DID_ECM_REPETITION_RATE` tag constant. -/
def DID_ECM_REPETITION_RATE : Nat := 0xD9

/-- In-memory form of `ts::ECMRepetitionRateDescriptor` (fields of
src/unnamed/part_001 plus the `_is_valid` indicator of the abstract base). -/
structure ECMRepetitionRateDescriptor where
  CA_system_id : Nat
  ECM_repetition_rate : Nat
  private_data : Bytes
  is_valid : Bool
  deriving DecidableEq, Repr

/-- Default constructor of src/unnamed/part_001 lines 51-58: all fields
zero/empty, `_is_valid = true`. -/
def ECMRepetitionRateDescriptor.default : ECMRepetitionRateDescriptor :=
  ⟨0, 0, [], true⟩

/-- `ts::ECMRepetitionRateDescriptor::serialize` (src/unnamed/part_001
lines 71-78): append `CA_system_id` (16 bits), `ECM_repetition_rate`
(16 bits), then the private data, framed by `serializeStart/serializeEnd`. -/
def ECMRepetitionRateDescriptor.serialize (e : ECMRepetitionRateDescriptor) : Descriptor :=
  serializeEnd DID_ECM_REPETITION_RATE
    (put16 e.CA_system_id ++ put16 e.ECM_repetition_rate ++ e.private_data)

/-- `ts::ECMRepetitionRateDescriptor::deserialize` (src/unnamed/part_001
lines 85-99): clear the private data; the entity is valid iff the input
descriptor is valid, carries the expected tag and has at least 4 payload
bytes; only when valid are the scalar fields assigned. -/
def ECMRepetitionRateDescriptor.deserialize (e : ECMRepetitionRateDescriptor)
    (d : Descriptor) : ECMRepetitionRateDescriptor :=
  let ok := d.isValid && (d.tag == DID_ECM_REPETITION_RATE) && decide (4 ≤ d.payloadSize)
  if ok then
    ⟨get16 d.payload 0, get16 d.payload 2, d.payload.drop 4, true⟩
  else
    { e with private_data := [], is_valid := false }

/-! ## `ts::AC3Descriptor` (src/unnamed/part_002)

The descriptor tag `DID_AC3` is a constant of the repository not under
`src/`; modelled from the spec as the AC-3 descriptor tag. -/

/-- Modelled from the spec: the `DID_AC3` tag constant. -/
def DID_AC3 : Nat := 0x6A

/-- In-memory form of `ts::AC3Descriptor`: four optional one-byte fields
(`Variable<uint8_t>` in C++, `Option Nat` here) plus free-form trailing
data and the validity indicator. -/
structure AC3Descriptor where
  component_type : Option Nat
  bsid : Option Nat
  mainid : Option Nat
  asvc : Option Nat
  additional_info : Bytes
  is_valid : Bool
  deriving DecidableEq, Repr

/-- Default constructor of src/unnamed/part_002 lines 42-51. -/
def AC3Descriptor.default : AC3Descriptor := ⟨none, none, none, none, [], true⟩

/-- `ts::AC3Descriptor::merge` (src/unnamed/part_002 lines 74-91): fill only
currently unset fields from `other`; never overwrite a set field. -/
def AC3Descriptor.merge (e other : AC3Descriptor) : AC3Descriptor :=
  { e with
    component_type := if e.component_type.isSome then e.component_type else other.component_type
    bsid := if e.bsid.isSome then e.bsid else other.bsid
    mainid := if e.mainid.isSome then e.mainid else other.mainid
    asvc := if e.asvc.isSome then e.asvc else other.asvc
    additional_info := if e.additional_info.isEmpty then other.additional_info
                       else e.additional_info }

/-- `ts::AC3Descriptor::serialize` (src/unnamed/part_002 lines 98-125):
one presence-bitmask byte (component_type 0x80, bsid 0x40, mainid 0x20,
asvc 0x10), each present field as one byte in that fixed order, then the
additional info; byte 0 is the tag and byte 1 the patched length. -/
def AC3Descriptor.serialize (e : AC3Descriptor) : Descriptor :=
  let flags := (if e.component_type.isSome then 0x80 else 0) +
               (if e.bsid.isSome then 0x40 else 0) +
               (if e.mainid.isSome then 0x20 else 0) +
               (if e.asvc.isSome then 0x10 else 0)
  let body := put8 flags ++
              (match e.component_type with | some v => put8 v | none => []) ++
              (match e.bsid with | some v => put8 v | none => []) ++
              (match e.mainid with | some v => put8 v | none => []) ++
              (match e.asvc with | some v => put8 v | none => []) ++
              e.additional_info
  ⟨DID_AC3 % 256 :: body.length % 256 :: body⟩

/-- One conditional field read of `ts::AC3Descriptor::deserialize`: when the
flag bit is set and at least one byte remains, consume it. -/
def readOptField (present : Bool) (bs : Bytes) : Option Nat × Bytes :=
  if present && decide (1 ≤ bs.length) then (some (get8 bs 0), bs.drop 1) else (none, bs)

/-- `ts::AC3Descriptor::deserialize` (src/unnamed/part_002 lines 132-165):
validity requires a valid input descriptor, the expected tag and at least the
bitmask byte; all fields are reset unconditionally; when valid, the bitmask
selects which one-byte fields follow, in fixed order, and every remaining
byte becomes additional info. -/
def AC3Descriptor.deserialize (_e : AC3Descriptor) (d : Descriptor) : AC3Descriptor :=
  let ok := d.isValid && (d.tag == DID_AC3) && decide (1 ≤ d.payloadSize)
  if ok then
    let flags := get8 d.payload 0
    let bs0 := d.payload.drop 1
    let r1 := readOptField (Nat.land flags 0x80 != 0) bs0
    let r2 := readOptField (Nat.land flags 0x40 != 0) r1.2
    let r3 := readOptField (Nat.land flags 0x20 != 0) r2.2
    let r4 := readOptField (Nat.land flags 0x10 != 0) r3.2
    ⟨r1.1, r2.1, r3.1, r4.1, r4.2, true⟩
  else
    ⟨none, none, none, none, [], false⟩

/-! ## The virtual channel table (`ts::AbstractVCT`, src/src/libtsduck/tsAbstractVCT.cpp)

Constants of the repository not under `src/`:
`TID_CVCT`/`TID_TVCT` (table-variant discriminator values, spec §9) and
`MAX_PSI_LONG_SECTION_PAYLOAD_SIZE` (the fixed section payload capacity,
spec §3 "payload(≤ max section size)"). Their numeric values are irrelevant
to the claims; only the discriminator comparison and the fixed capacity
matter. -/

/-- Modelled from the spec: the CVCT table id. -/
def TID_CVCT : Nat := 0xC9

/-- Modelled from the spec: the TVCT table id. -/
def TID_TVCT : Nat := 0xC8

/-- Modelled from the spec: fixed capacity of one long-section payload. -/
def MAX_PSI_LONG_SECTION_PAYLOAD_SIZE : Nat := 1012

/-- One channel entry of the VCT (`ts::AbstractVCT::Channel`), field names
as in the source; `short_name` is the list of UTF-16 code units. -/
structure Channel where
  short_name : List Nat
  major_channel_number : Nat
  minor_channel_number : Nat
  modulation_mode : Nat
  carrier_frequency : Nat
  channel_TSID : Nat
  program_number : Nat
  ETM_location : Nat
  access_controlled : Bool
  hidden : Bool
  hide_guide : Bool
  service_type : Nat
  source_id : Nat
  path_select : Nat
  out_of_band : Bool
  descs : List Descr
  deriving DecidableEq, Repr

/-- One section produced by `addSection` (tsAbstractVCT.cpp lines 195-215):
table id, private flag, table-id extension, version, current flag, section
number, last section number (both set to the running number), payload. -/
structure Sect where
  table_id : Nat
  is_private : Bool
  tid_ext : Nat
  version : Nat
  is_current : Bool
  sec_num : Nat
  last_sec_num : Nat
  payload : Bytes
  deriving DecidableEq, Repr

/-- Input/output container of sections (`ts::BinaryTable`, not under `src/`):
modelled from the spec as "a raw-section source exposing ordered sections"
plus the validity indicator and table id checked by `deserialize`. -/
structure BinaryTable where
  valid : Bool
  tid : Nat
  sections : List Sect
  deriving DecidableEq, Repr

/-- The table entity (`ts::AbstractVCT` members, with `_table_id`, `version`
and `is_current` inherited from `AbstractLongTable`). -/
structure VCT where
  table_id : Nat
  version : Nat
  is_current : Bool
  protocol_version : Nat
  transport_stream_id : Nat
  channels : List Channel
  descs : List Descr
  is_valid : Bool
  deriving DecidableEq, Repr

/-! ### Serialization (tsAbstractVCT.cpp lines 222-316) -/

/-- The 14 short-name bytes (serialize lines 262-264): seven big-endian
16-bit code units, zero-padded past the end of the name. -/
def nameBytes (name : List Nat) : Bytes :=
  ((List.range 7).map (fun i => put16 (name.getD i 0))).flatten

/-- The flags byte written at offset 26 (serialize lines 272-278),
reproducing the C++ or-chain, including the CVCT-only interpretation of
bits 3 and 2 selected by the table-variant discriminator. -/
def chanFlagsByte (cvct : Bool) (ch : Channel) : Nat :=
  Nat.lor (Nat.lor (Nat.lor (Nat.lor (Nat.lor (Nat.lor
    (ch.ETM_location <<< 6)
    (if ch.access_controlled then 0x20 else 0x00))
    (if ch.hidden then 0x10 else 0x00))
    (if !cvct then 0x08 else (Nat.land ch.path_select 0x01) <<< 3))
    (if !cvct || ch.out_of_band then 0x04 else 0x00))
    (if ch.hide_guide then 0x02 else 0x00))
    0x01

/-- The 30 fixed bytes of one channel (serialize lines 262-280): short name,
the 24-bit field `0xF000 | ((major & 0x03FF) << 10) | (minor & 0x03FF)`
written exactly as in the source (line 267), modulation mode, carrier
frequency, channel TSID, program number, flags, `0xC0 | service_type`,
source id. -/
def chanFixedBytes (cvct : Bool) (ch : Channel) : Bytes :=
  nameBytes ch.short_name ++
  put24 (Nat.lor (Nat.lor 0xF000 ((Nat.land ch.major_channel_number 0x03FF) <<< 10))
                 (Nat.land ch.minor_channel_number 0x03FF)) ++
  put8 ch.modulation_mode ++
  put32 ch.carrier_frequency ++
  put16 ch.channel_TSID ++
  put16 ch.program_number ++
  put8 (chanFlagsByte cvct ch) ++
  put8 (Nat.lor 0xC0 ch.service_type) ++
  put16 ch.source_id

/-- Result of the channel-placement loop: channel-area bytes, remaining
capacity, number of channels placed in this section, channels deferred to
the next section. -/
structure PlaceResult where
  bytes : Bytes
  remain : Nat
  num_channels : Nat
  leftover : List Channel
  deriving DecidableEq, Repr

/-- The inner channel loop of `serialize` (lines 252-304).  While channels
are pending and at least 34 bytes remain: write the 30 fixed bytes, then
`lengthSerialize` the channel's descriptors with reserved bits `0x003F` and
a 10-bit length, reserving 2 extra bytes for the trailing global length
field (`remain -= 32` then `remain += 2`).  The channel is kept when it is
the first of the section (`num_channels == 0`) or all its descriptors were
serialized; otherwise the write position and capacity are restored and the
loop stops. -/
def placeChannels (cvct : Bool) : List Channel → Bytes → Nat → Nat → PlaceResult
  | [], bs, remain, nc => ⟨bs, remain, nc, []⟩
  | ch :: rest, bs, remain, nc =>
    if 34 ≤ remain then
      let r := lengthSerialize ch.descs 0 (remain - 32) 0x003F 10
      if nc = 0 ∨ ch.descs.length ≤ r.2 then
        placeChannels cvct rest (bs ++ chanFixedBytes cvct ch ++ r.1)
          (remain - 30 - r.1.length) (nc + 1)
      else ⟨bs, remain, nc, ch :: rest⟩
    else ⟨bs, remain, nc, ch :: rest⟩

/-- The fixed two-byte header plus the stored channel count (serialize
lines 245-249 and 307): byte 0 is the protocol version, byte 1 a
placeholder, and `PutUInt16(payload + 1, num_channels)` then writes the
16-bit count at offset 1 — byte 1 receives the high half and byte 2 (the
first byte of the first channel when one exists; scratch space overwritten
by the global list otherwise) the low half, exactly as in the source. -/
def storeNumChannels (pv : Nat) (chanBytes : Bytes) (nc : Nat) : Bytes :=
  ((put8 pv ++ [0] ++ chanBytes).set 1 (nc / 256 % 256)).set 2 (nc % 256)

/-- The outer section-building loop of `serialize` (lines 242-315), fuelled:
each turn opens a fresh `MAX_PSI_LONG_SECTION_PAYLOAD_SIZE` buffer, writes
the header, places channels, stores the channel count, appends as much of
the global descriptor list as fits (reserved bits `0x003F`, 10-bit length),
and closes the section; it continues while channels or global descriptors
are pending.  The fuel `channels + descs + 1` is sufficient because every
section after the first consumes at least one pending item. -/
def buildSections (t : VCT) : Nat → List Channel → Nat → Nat → List Sect
  | 0, _, _, _ => []
  | fuel + 1, chans, next_desc, sec_num =>
    let cvct := t.table_id == TID_CVCT
    let r := placeChannels cvct chans [] (MAX_PSI_LONG_SECTION_PAYLOAD_SIZE - 2) 0
    let g := lengthSerialize t.descs next_desc r.remain 0x003F 10
    let payload := storeNumChannels t.protocol_version r.bytes r.num_channels ++ g.1
    let sect : Sect := ⟨t.table_id, true, t.transport_stream_id, t.version, t.is_current,
                        sec_num % 256, sec_num % 256, payload⟩
    if r.leftover.isEmpty && decide (t.descs.length ≤ g.2) then [sect]
    else sect :: buildSections t fuel r.leftover g.2 (sec_num + 1)

/-- `ts::AbstractVCT::serialize` (lines 222-316): an empty table when the
entity is invalid, otherwise the section-building loop starting from channel
index 0 and global-descriptor index 0. -/
def VCT.serialize (t : VCT) : List Sect :=
  if t.is_valid then
    buildSections t (t.channels.length + t.descs.length + 1) t.channels 0 0
  else []

/-! ### Deserialization (tsAbstractVCT.cpp lines 86-187) -/

/-- The short-name read (deserialize lines 130-138): up to seven 16-bit code
units, stopping at the first zero. -/
def parseName : Nat → Nat → Bytes → List Nat
  | 0, _, _ => []
  | k + 1, i, bs =>
    let c := get16 bs (2 * i)
    if c = 0 then [] else c :: parseName k (i + 1) bs

/-- The fixed-field reads of one channel (deserialize lines 129-164),
including the 10-bit/10-bit split of the 24-bit field at offset 14 and the
CVCT-only flag bits selected by the discriminator. -/
def decodeChannel (cvct : Bool) (bs : Bytes) : Channel :=
  let num := get24 bs 14
  let flags := get8 bs 26
  { short_name := parseName 7 0 bs
    major_channel_number := Nat.land (num >>> 10) 0x03FF
    minor_channel_number := Nat.land num 0x03FF
    modulation_mode := get8 bs 17
    carrier_frequency := get32 bs 18
    channel_TSID := get16 bs 22
    program_number := get16 bs 24
    ETM_location := Nat.land (flags >>> 6) 0x03
    access_controlled := Nat.land flags 0x20 != 0
    hidden := Nat.land flags 0x10 != 0
    path_select := if cvct then Nat.land (flags >>> 3) 0x01 else 0
    out_of_band := if cvct then Nat.land flags 0x04 != 0 else false
    hide_guide := Nat.land flags 0x02 != 0
    service_type := Nat.land (get8 bs 27) 0x3F
    source_id := get16 bs 28
    descs := [] }

/-- Result of the channel-parsing loop: number of declared channels not yet
parsed when the loop stopped, the unconsumed bytes, the parsed channels. -/
structure ChanParse where
  leftover : Nat
  rest : Bytes
  chans : List Channel
  deriving DecidableEq, Repr

/-- The channel loop of `deserialize` (lines 123-173): while declared
channels remain and at least 32 bytes are left, decode the fixed fields,
read the descriptor-list length as `GetUInt16(data + 30) & 0x0FFF` exactly
as in the source (line 167), clamp it to the remaining bytes, attach the
parsed descriptors, and advance. -/
def parseChannels (cvct : Bool) : Nat → Bytes → ChanParse
  | 0, bs => ⟨0, bs, []⟩
  | n + 1, bs =>
    if 32 ≤ bs.length then
      let ch := decodeChannel cvct bs
      let il := min (Nat.land (get16 bs 30) 0x0FFF) (bs.length - 32)
      let r := parseChannels cvct n (bs.drop (32 + il))
      ⟨r.leftover, r.rest, { ch with descs := descListAdd ((bs.drop 32).take il) } :: r.chans⟩
    else ⟨n + 1, bs, []⟩

/-- One section of `deserialize` (lines 100-184): overwrite the shared
table-level fields from the section, require at least the 2-byte fixed part,
read the protocol version and declared channel count, run the channel loop,
abort when channels are missing or fewer than 2 bytes remain, then read the
global descriptor-list length as `GetUInt16(data) & 0x0FFF` (line 179),
clamp it and accumulate the global descriptors.  Returns the updated entity
and whether processing may continue. -/
def deserializeSection (cvct : Bool) (t : VCT) (s : Sect) : VCT × Bool :=
  let t1 := { t with version := s.version, is_current := s.is_current,
                     transport_stream_id := s.tid_ext }
  if s.payload.length < 2 then (t1, false)
  else
    let pv := get8 s.payload 0
    let nc := get8 s.payload 1
    let r := parseChannels cvct nc (s.payload.drop 2)
    let t2 := { t1 with protocol_version := pv, channels := t1.channels ++ r.chans }
    if r.leftover ≠ 0 ∨ r.rest.length < 2 then (t2, false)
    else
      let il := min (Nat.land (get16 r.rest 0) 0x0FFF) (r.rest.length - 2)
      ({ t2 with descs := t2.descs ++ descListAdd ((r.rest.drop 2).take il) }, true)

/-- The section loop of `deserialize` (line 100): sections are consumed in
the order supplied; the first aborting section stops the loop. -/
def deserializeLoop (cvct : Bool) : List Sect → VCT → VCT × Bool
  | [], t => (t, true)
  | s :: rest, t =>
    let r := deserializeSection cvct t s
    if r.2 then deserializeLoop cvct rest r.1 else r

/-- `ts::AbstractVCT::deserialize` (lines 86-187): clear the table content
(validity, protocol version, transport stream id, both descriptor lists;
`version` and `is_current` are not cleared), reject an invalid input table
or a table-id mismatch, then run the section loop; the entity becomes valid
only when every section was processed without abort. -/
def VCT.deserialize (t : VCT) (tbl : BinaryTable) : VCT :=
  let t0 := { t with is_valid := false, protocol_version := 0,
                     transport_stream_id := 0, descs := [], channels := [] }
  if !tbl.valid || tbl.tid != t.table_id then t0
  else
    let r := deserializeLoop (t.table_id == TID_CVCT) tbl.sections t0
    if r.2 then { r.1 with is_valid := true } else r.1

/-! ### XML bridge (tsAbstractVCT.cpp lines 434-486) -/

/-- An XML element as seen by `fromXML`: a name and attribute list. -/
structure XmlElement where
  name : String
  attributes : List (String × String)
  deriving DecidableEq, Repr

/-- `ts::AbstractVCT::fromXML` (lines 434-486): the active code clears the
descriptor and channel lists; the element-name check, attribute parsing and
validity assignment are entirely inside a comment block (`@@@@@@`), so no
other field — in particular not `_is_valid` — is touched. -/
def VCT.fromXML (t : VCT) (_e : XmlElement) : VCT :=
  { t with descs := [], channels := [] }

/-! ### Derived notions and concrete instances used by the theorems -/

/-- A section payload on which the reassembly loop of `deserialize` aborts
for one of the two reasons named by the spec: shorter than the 2-byte fixed
part (line 113), or declaring more channels than its bytes can hold, i.e.
the channel loop stops with declared channels still unparsed (line 174). -/
def sectionAborts (cvct : Bool) (p : Bytes) : Prop :=
  p.length < 2 ∨ (parseChannels cvct (get8 p 1) (p.drop 2)).leftover ≠ 0

instance (cvct : Bool) (p : Bytes) : Decidable (sectionAborts cvct p) :=
  inferInstanceAs (Decidable (p.length < 2 ∨ (parseChannels cvct (get8 p 1) (p.drop 2)).leftover ≠ 0))

/-- A maximal-size descriptor (255 payload bytes), used to force a table
onto several sections. -/
def bigDescr : Descr := ⟨0, List.replicate 255 0⟩

/-- First channel of the two-section example table: carries three maximal
descriptors (773 encoded channel bytes). -/
def exChannelA : Channel :=
  ⟨[], 1, 2, 3, 4, 5, 6, 1, false, false, false, 2, 7, 0, false, [bigDescr, bigDescr, bigDescr]⟩

/-- Second channel of the two-section example table, same descriptor load,
so that both channels cannot share one 1012-byte section. -/
def exChannelB : Channel :=
  ⟨[], 9, 8, 3, 4, 5, 6, 1, false, false, false, 2, 7, 0, false, [bigDescr, bigDescr, bigDescr]⟩

/-- A valid TVCT whose two channels need two sections to serialize. -/
def exTable : VCT := ⟨TID_TVCT, 5, true, 0, 0x1234, [exChannelA, exChannelB], [], true⟩

/-- A channel with all-zero fields and no descriptors. -/
def zeroChannel : Channel := ⟨[], 1, 2, 0, 0, 0, 0, 0, false, false, false, 0, 0, 0, false, []⟩

/-- A handcrafted 36-byte section payload that is a complete well-formed
encoding under the 10-bit length convention: protocol version 0, one
channel whose descriptor-list length field is `0xFC00` (six reserved bits
set, 10-bit length 0), then a global length field `0xFC00` (again length
0).  This is byte-for-byte what the serializer's length convention
produces for a channel without descriptors. -/
def tenBitPayload : Bytes :=
  [0x00, 0x01] ++ chanFixedBytes false zeroChannel ++ put16 0xFC00 ++ put16 0xFC00

/-- The handcrafted section of `tenBitPayload` wrapped as a one-section
binary table with matching table id. -/
def tenBitTable : BinaryTable :=
  ⟨true, TID_TVCT, [⟨TID_TVCT, true, 0, 0, true, 0, 0, tenBitPayload⟩]⟩

/-- A freshly constructed TVCT entity (constructor state: zero fields,
empty lists). -/
def freshTVCT : VCT := ⟨TID_TVCT, 0, true, 0, 0, [], [], true⟩

/-- A section carrying version 9, current flag false, table-id extension
0x42 and a complete zero-channel payload, on which deserialization
succeeds. -/
def zeroChanSect : Sect := ⟨TID_TVCT, true, 0x42, 9, false, 0, 0, [0, 0] ++ put16 0xFC00⟩

/-- `zeroChanSect` wrapped as a one-section binary table. -/
def zeroChanTable : BinaryTable := ⟨true, TID_TVCT, [zeroChanSect]⟩

/-- A section with an empty payload: shorter than the 2-byte minimum header,
so reassembly must abort on it. -/
def emptySect : Sect := ⟨TID_TVCT, true, 0, 0, true, 0, 0, []⟩

/-- A channel whose single 42-byte descriptor cannot fit when only 34 bytes
of section capacity remain; used to exercise the rollback branch of the
channel-placement loop. -/
def rollbackChannel : Channel :=
  ⟨[], 0, 0, 0, 0, 0, 0, 0, false, false, false, 0, 0, 0, false, [⟨0, List.replicate 40 0⟩]⟩

/-- A VCT holding one channel and one global descriptor with valid state,
used to show what `fromXML` does to a populated entity. -/
def populatedVCT : VCT := ⟨TID_CVCT, 1, true, 2, 7, [zeroChannel], [⟨1, [2]⟩], true⟩

/-! ## Helper lemmas -/

/-- The descriptor-serialization loop emits exactly the encodings of the
first `(serializeDescs ds cap).2` descriptors: truncation happens only at a
descriptor boundary. -/
theorem serializeDescs_take (ds : List Descr) (cap : Nat) :
    (serializeDescs ds cap).1 =
      ((ds.take (serializeDescs ds cap).2).map Descr.bytes).flatten := by
  induction ds generalizing cap with
  | nil => simp [serializeDescs]
  | cons d rest ih =>
    simp only [serializeDescs]
    by_cases h : d.size ≤ cap
    · simp [h, ih]
    · simp [h]

/-- A section satisfying `sectionAborts` stops the reassembly loop. -/
theorem deserializeSection_aborts (cvct : Bool) (t : VCT) (s : Sect)
    (h : sectionAborts cvct s.payload) : (deserializeSection cvct t s).2 = false := by
  rcases h with h | h
  · simp [deserializeSection, h]
  · by_cases h2 : s.payload.length < 2
    · simp [deserializeSection, h2]
    · simp [deserializeSection, h2, h]

/-- Every branch of `deserializeSection` overwrites the shared table-level
fields with the section's values, and none touches the validity flag. -/
theorem deserializeSection_fields (cvct : Bool) (t : VCT) (s : Sect) :
    (deserializeSection cvct t s).1.version = s.version ∧
    (deserializeSection cvct t s).1.is_current = s.is_current ∧
    (deserializeSection cvct t s).1.transport_stream_id = s.tid_ext ∧
    (deserializeSection cvct t s).1.is_valid = t.is_valid := by
  by_cases h1 : s.payload.length < 2
  · simp [deserializeSection, h1]
  · by_cases h2 : (parseChannels cvct (get8 s.payload 1) (s.payload.drop 2)).leftover ≠ 0 ∨
        (parseChannels cvct (get8 s.payload 1) (s.payload.drop 2)).rest.length < 2
    · simp [deserializeSection, h1, h2]
    · simp [deserializeSection, h1, h2]

/-- The reassembly loop never changes the validity flag of the entity it
threads through. -/
theorem deserializeLoop_is_valid (cvct : Bool) (ss : List Sect) (t : VCT) :
    (deserializeLoop cvct ss t).1.is_valid = t.is_valid := by
  induction ss generalizing t with
  | nil => simp [deserializeLoop]
  | cons s rest ih =>
    simp only [deserializeLoop]
    by_cases h : (deserializeSection cvct t s).2
    · simpa [h, ih] using (deserializeSection_fields cvct t s).2.2.2
    · simpa [h] using (deserializeSection_fields cvct t s).2.2.2

/-- Once an aborting section is reached, the loop result does not depend on
the sections after it, and the continue-flag is false. -/
theorem deserializeLoop_abort (cvct : Bool) (s : Sect)
    (hs : sectionAborts cvct s.payload) :
    ∀ (pre post post' : List Sect) (t : VCT),
      deserializeLoop cvct (pre ++ s :: post) t =
        deserializeLoop cvct (pre ++ s :: post') t ∧
      (deserializeLoop cvct (pre ++ s :: post) t).2 = false := by
  intro pre
  induction pre with
  | nil =>
    intro post post' t
    have hab := deserializeSection_aborts cvct t s hs
    simp [deserializeLoop, hab]
  | cons p rest ih =>
    intro post post' t
    simp only [List.cons_append, deserializeLoop]
    by_cases h : (deserializeSection cvct t p).2
    · simpa [h] using ih post post' (deserializeSection cvct t p).1
    · simp [h]

/-- When the loop runs to completion, the shared table-level fields hold the
values of the last section processed. -/
theorem deserializeLoop_last (cvct : Bool) :
    ∀ (ss : List Sect) (slast : Sect) (t : VCT),
      (deserializeLoop cvct (ss ++ [slast]) t).2 = true →
      (deserializeLoop cvct (ss ++ [slast]) t).1.version = slast.version ∧
      (deserializeLoop cvct (ss ++ [slast]) t).1.is_current = slast.is_current ∧
      (deserializeLoop cvct (ss ++ [slast]) t).1.transport_stream_id = slast.tid_ext := by
  intro ss
  induction ss with
  | nil =>
    intro slast t h
    by_cases h2 : (deserializeSection cvct t slast).2
    · have hf := deserializeSection_fields cvct t slast
      simp only [List.nil_append, deserializeLoop, h2, if_true] at *
      exact ⟨hf.1, hf.2.1, hf.2.2.1⟩
    · simp [deserializeLoop, h2] at h
  | cons p rest ih =>
    intro slast t h
    simp only [List.cons_append, deserializeLoop] at *
    by_cases h2 : (deserializeSection cvct t p).2
    · simp only [h2, if_true] at *
      exact ih slast _ h
    · simp [h2] at h

/-! ## Claim theorems -/

/-- C9: serializing the ECM_repetition_rate descriptor entity with tag 0xD9,
CA_system_id 0x0500, ECM_repetition_rate 500 and empty private data produces
exactly the bytes `D9 04 05 00 01 F4`, and deserializing those bytes into a
freshly constructed entity yields validity true, CA_system_id 0x0500,
ECM_repetition_rate 500 and empty private data. -/
theorem C9_ecm_scenario_roundtrip :
    (ECMRepetitionRateDescriptor.serialize ⟨0x0500, 500, [], true⟩).raw
        = [0xD9, 0x04, 0x05, 0x00, 0x01, 0xF4] ∧
    ECMRepetitionRateDescriptor.deserialize ECMRepetitionRateDescriptor.default
        ⟨[0xD9, 0x04, 0x05, 0x00, 0x01, 0xF4]⟩
      = ⟨0x0500, 500, [], true⟩ := by decide

/-- C4 (refuted on the code, supporting the code_bug report): the serializer
writes the 24-bit field as `0xF000 | (major << 10) | minor` (line 267), so
for major 1 / minor 0 the field is 0x00F400 — its 4 high bits are 0, not
the claimed all-ones — and the deserializer (lines 141-143) recovers
major_channel_number 61 instead of 1 (the `0xF000` constant lands inside
the major bits; minor survives). -/
theorem C4_major_minor_packing_bug :
    get24 (chanFixedBytes false ⟨[], 1, 0, 0, 0, 0, 0, 0, false, false, false,
        0, 0, 0, false, []⟩) 14 = 0xF400 ∧
    get24 (chanFixedBytes false ⟨[], 1, 0, 0, 0, 0, 0, 0, false, false, false,
        0, 0, 0, false, []⟩) 14 >>> 20 = 0 ∧
    (decodeChannel false (chanFixedBytes false ⟨[], 1, 0, 0, 0, 0, 0, 0, false,
        false, false, 0, 0, 0, false, []⟩)).major_channel_number = 61 ∧
    (decodeChannel false (chanFixedBytes false ⟨[], 1, 0, 0, 0, 0, 0, 0, false,
        false, false, 0, 0, 0, false, []⟩)).minor_channel_number = 0 := by decide

/-- C3 (refuted on the code, supporting the code_bug report): serialization
does write the descriptor-list length in the low 10 bits of the 16-bit
field with the 6 reserved bits on top (`0x003F`, width 10 — first
conjunct), and under the claimed 10-bit extraction the handcrafted section
`tenBitPayload` is a complete encoding (second conjunct: 10-bit mask of its
`0xFC00` length field is 0); but the deserializer masks `0x0FFF`
(lines 167 and 179), reads 0x0C00 (third conjunct), swallows the trailing
global length field into the channel's descriptor list, and aborts: the
table comes out invalid (fourth conjunct). -/
theorem C3_ten_bit_length_mask_bug :
    (lengthSerialize [] 0 100 0x003F 10).1 = [0xFC, 0x00] ∧
    Nat.land (get16 [0xFC, 0x00] 0) 0x03FF = 0 ∧
    Nat.land (get16 [0xFC, 0x00] 0) 0x0FFF = 0x0C00 ∧
    (VCT.deserialize freshTVCT tenBitTable).is_valid = false := by decide

/-- C10 (refuted on the code, supporting the code_bug report): `fromXML` on
a mismatched element name with every required attribute missing leaves a
previously valid entity valid — it performs no validation at all, merely
clearing the two lists (the parsing/validation block of lines 439-485 is
commented out). -/
theorem C10_fromXML_no_validation :
    (VCT.fromXML populatedVCT ⟨"FOO", []⟩).is_valid = true ∧
    VCT.fromXML populatedVCT ⟨"FOO", []⟩ = { populatedVCT with descs := [], channels := [] } := by
  constructor
  · rfl
  · rfl

/-- C6 counterexample: deserializing the one-byte-short ECM bytes
`D9 03 05 00 01` into an entity whose scalar fields hold prior values
marks it invalid but does NOT reset every field: CA_system_id stays 0x1234
(only the private data is cleared), refuting "every field is reset to its
default/zero value". -/
theorem C6_fields_not_reset_counterexample :
    (ECMRepetitionRateDescriptor.deserialize ⟨0x1234, 7, [1, 2], true⟩
        ⟨[0xD9, 0x03, 0x05, 0x00, 0x01]⟩).is_valid = false ∧
    (ECMRepetitionRateDescriptor.deserialize ⟨0x1234, 7, [1, 2], true⟩
        ⟨[0xD9, 0x03, 0x05, 0x00, 0x01]⟩).CA_system_id = 0x1234 ∧
    (ECMRepetitionRateDescriptor.deserialize ⟨0x1234, 7, [1, 2], true⟩
        ⟨[0xD9, 0x03, 0x05, 0x00, 0x01]⟩).ECM_repetition_rate = 7 := by decide

/-- C6 as amended: on any input whose descriptor is invalid, whose tag is
wrong, or whose payload is too short, deserialization marks the entity
invalid and never throws (it is a total function); the ECM descriptor
clears only its private data, keeping the prior scalar values (which are
zero when the entity is freshly constructed, as in the spec scenario),
while the AC-3 descriptor resets every field. -/
theorem C6_invalid_input_behavior (e : ECMRepetitionRateDescriptor)
    (a : AC3Descriptor) (d d2 : Descriptor)
    (h : ¬(d.isValid = true ∧ d.tag = DID_ECM_REPETITION_RATE ∧ 4 ≤ d.payloadSize))
    (h2 : ¬(d2.isValid = true ∧ d2.tag = DID_AC3 ∧ 1 ≤ d2.payloadSize)) :
    ECMRepetitionRateDescriptor.deserialize e d
        = { e with private_data := [], is_valid := false } ∧
    AC3Descriptor.deserialize a d2 = ⟨none, none, none, none, [], false⟩ := by
  constructor
  · have hok : (d.isValid && (d.tag == DID_ECM_REPETITION_RATE)
        && decide (4 ≤ d.payloadSize)) = false := by
      cases hbv : (d.isValid && (d.tag == DID_ECM_REPETITION_RATE)
        && decide (4 ≤ d.payloadSize))
      · rfl
      · exfalso
        apply h
        simp only [Bool.and_eq_true, beq_iff_eq, decide_eq_true_eq] at hbv
        exact ⟨hbv.1.1, hbv.1.2, hbv.2⟩
    simp [ECMRepetitionRateDescriptor.deserialize, hok]
  · have hok : (d2.isValid && (d2.tag == DID_AC3) && decide (1 ≤ d2.payloadSize)) = false := by
      cases hbv : (d2.isValid && (d2.tag == DID_AC3) && decide (1 ≤ d2.payloadSize))
      · rfl
      · exfalso
        apply h2
        simp only [Bool.and_eq_true, beq_iff_eq, decide_eq_true_eq] at hbv
        exact ⟨hbv.1.1, hbv.1.2, hbv.2⟩
    simp [AC3Descriptor.deserialize, hok]

/-- Witness for C6_invalid_input_behavior at the spec's one-byte-short
input and an empty AC-3 input. -/
theorem C6_invalid_input_behavior_witness :
    ¬((Descriptor.mk [0xD9, 0x03, 0x05, 0x00, 0x01]).isValid = true ∧
      (Descriptor.mk [0xD9, 0x03, 0x05, 0x00, 0x01]).tag = DID_ECM_REPETITION_RATE ∧
      4 ≤ (Descriptor.mk [0xD9, 0x03, 0x05, 0x00, 0x01]).payloadSize) ∧
    ¬((Descriptor.mk []).isValid = true ∧ (Descriptor.mk []).tag = DID_AC3 ∧
      1 ≤ (Descriptor.mk []).payloadSize) ∧
    (ECMRepetitionRateDescriptor.deserialize ECMRepetitionRateDescriptor.default
        ⟨[0xD9, 0x03, 0x05, 0x00, 0x01]⟩
      = { ECMRepetitionRateDescriptor.default with private_data := [], is_valid := false } ∧
     AC3Descriptor.deserialize AC3Descriptor.default ⟨[]⟩
      = ⟨none, none, none, none, [], false⟩) :=
  ⟨by decide, by decide,
   C6_invalid_input_behavior ECMRepetitionRateDescriptor.default AC3Descriptor.default
     ⟨[0xD9, 0x03, 0x05, 0x00, 0x01]⟩ ⟨[]⟩ (by decide) (by decide)⟩

set_option maxRecDepth 10000 in
/-- C1 (refuted on the code, supporting the code_bug report): `exTable` is a
valid table whose two channels need two sections (first two conjuncts), yet
deserializing the sections produced by serialize yields a table that is
reported valid with NO channels at all — every entry is dropped (last two
conjuncts).  The 16-bit store of the channel count at payload offset 1
leaves the count byte 0 and clobbers the first channel byte, and the
`0x0FFF` length masks swallow the remaining section bytes. -/
theorem C1_multisection_roundtrip_drops_entries :
    (VCT.serialize exTable).length = 2 ∧
    exTable.channels.length = 2 ∧
    (VCT.deserialize exTable ⟨true, TID_TVCT, VCT.serialize exTable⟩).is_valid = true ∧
    (VCT.deserialize exTable ⟨true, TID_TVCT, VCT.serialize exTable⟩).channels = [] := by
  decide

/-- C2: in the channel-placement loop of `serialize`, with at least the
34-byte minimum available and a channel whose descriptor list cannot be
fully placed: (i) when the channel is not the first of the section
(`num_channels ≠ 0`) it is removed in its entirety — the payload write
position and the remaining capacity are restored to their values before the
attempt, the loop stops (closing the section), and the channel heads the
leftover list handed to the next section; (ii) when it is the first of a
section (`num_channels = 0`), any pending head channel is always kept, its
encoding carrying whatever descriptors fit; (iii) the emitted descriptor
bytes are exactly the encodings of the descriptors that fit — a descriptor
list is never split mid-descriptor. -/
theorem C2_first_kept_subsequent_rolled_back (cvct : Bool) (c : Channel)
    (rest : List Channel) (bs : Bytes) (remain nc : Nat)
    (h34 : 34 ≤ remain) (hnc : nc ≠ 0)
    (hfit : (lengthSerialize c.descs 0 (remain - 32) 0x003F 10).2 < c.descs.length) :
    placeChannels cvct (c :: rest) bs remain nc = ⟨bs, remain, nc, c :: rest⟩ ∧
    (∀ bs2 r2, 34 ≤ r2 →
      placeChannels cvct (c :: rest) bs2 r2 0 =
        placeChannels cvct rest
          (bs2 ++ chanFixedBytes cvct c ++ (lengthSerialize c.descs 0 (r2 - 32) 0x003F 10).1)
          (r2 - 30 - (lengthSerialize c.descs 0 (r2 - 32) 0x003F 10).1.length) 1) ∧
    (serializeDescs c.descs (remain - 34)).1 =
      ((c.descs.take (serializeDescs c.descs (remain - 34)).2).map Descr.bytes).flatten := by
  refine ⟨?_, ?_, serializeDescs_take _ _⟩
  · simp only [placeChannels]
    rw [if_pos h34, if_neg (not_or.mpr ⟨hnc, not_le.mpr hfit⟩)]
  · intro bs2 r2 h2
    simp only [placeChannels]
    rw [if_pos h2]
    simp

/-- Witness for C2_first_kept_subsequent_rolled_back: `rollbackChannel`
carries a 42-byte descriptor, which cannot fit in the 0 descriptor bytes
left of a 34-byte remainder. -/
theorem C2_first_kept_subsequent_rolled_back_witness :
    (34 ≤ 34 ∧ (1 : Nat) ≠ 0 ∧
      (lengthSerialize rollbackChannel.descs 0 (34 - 32) 0x003F 10).2 <
        rollbackChannel.descs.length) ∧
    placeChannels false [rollbackChannel] [] 34 1 = ⟨[], 34, 1, [rollbackChannel]⟩ ∧
    placeChannels false [rollbackChannel] [] 34 0 =
      placeChannels false []
        ([] ++ chanFixedBytes false rollbackChannel ++
          (lengthSerialize rollbackChannel.descs 0 (34 - 32) 0x003F 10).1)
        (34 - 30 - (lengthSerialize rollbackChannel.descs 0 (34 - 32) 0x003F 10).1.length) 1 :=
  ⟨⟨by decide, by decide, by decide⟩,
   (C2_first_kept_subsequent_rolled_back false rollbackChannel [] [] 34 1
      (by decide) (by decide) (by decide)).1,
   (C2_first_kept_subsequent_rolled_back false rollbackChannel [] [] 34 1
      (by decide) (by decide) (by decide)).2.1 [] 34 (by decide)⟩

/-- C5: whenever some section of the input is shorter than the 2-byte
minimum header or declares more channel entries than its remaining bytes can
hold (the entry loop stops before the declared count is reached), the
resulting table's validity indicator is false, and reassembly aborts
immediately at the first such section: the result does not depend on any
section after it. -/
theorem C5_bad_section_invalidates (t : VCT) (bval : Bool) (tid : Nat)
    (pre post post' : List Sect) (s : Sect)
    (hs : sectionAborts (t.table_id == TID_CVCT) s.payload) :
    (VCT.deserialize t ⟨bval, tid, pre ++ s :: post⟩).is_valid = false ∧
    VCT.deserialize t ⟨bval, tid, pre ++ s :: post⟩ =
      VCT.deserialize t ⟨bval, tid, pre ++ s :: post'⟩ := by
  have hl := deserializeLoop_abort (t.table_id == TID_CVCT) s hs pre post post'
    { t with is_valid := false, protocol_version := 0, transport_stream_id := 0,
             descs := [], channels := [] }
  by_cases hg : (!bval || (tid != t.table_id)) = true
  · simp [VCT.deserialize, hg]
  · constructor
    · simp only [VCT.deserialize]
      rw [if_neg hg]
      simp only [hl.2, if_false, Bool.false_eq_true]
      simp [deserializeLoop_is_valid]
    · simp only [VCT.deserialize]
      rw [if_neg hg, if_neg hg]
      rw [hl.1]

/-- Witness for C5_bad_section_invalidates: an empty-payload section,
followed by an arbitrary further section that the abort must ignore. -/
theorem C5_bad_section_invalidates_witness :
    sectionAborts (freshTVCT.table_id == TID_CVCT) emptySect.payload ∧
    (VCT.deserialize freshTVCT ⟨true, TID_TVCT, [] ++ emptySect :: [zeroChanSect]⟩).is_valid
      = false ∧
    VCT.deserialize freshTVCT ⟨true, TID_TVCT, [] ++ emptySect :: [zeroChanSect]⟩ =
      VCT.deserialize freshTVCT ⟨true, TID_TVCT, [] ++ emptySect :: []⟩ :=
  ⟨by decide,
   (C5_bad_section_invalidates freshTVCT true TID_TVCT [] [zeroChanSect] [] emptySect
      (by decide)).1,
   (C5_bad_section_invalidates freshTVCT true TID_TVCT [] [zeroChanSect] [] emptySect
      (by decide)).2⟩

/-- C7: the shared table-level fields are re-read from every section in
processing order with no cross-section consistency check, so whenever
`deserialize` succeeds, the resulting version, current flag and table-id
extension are exactly those of the last section processed. -/
theorem C7_shared_fields_last_section_wins (t : VCT) (tbl : BinaryTable)
    (ss : List Sect) (slast : Sect)
    (hsec : tbl.sections = ss ++ [slast])
    (hok : (VCT.deserialize t tbl).is_valid = true) :
    (VCT.deserialize t tbl).version = slast.version ∧
    (VCT.deserialize t tbl).is_current = slast.is_current ∧
    (VCT.deserialize t tbl).transport_stream_id = slast.tid_ext := by
  by_cases hg : (!tbl.valid || (tbl.tid != t.table_id)) = true
  · exfalso
    rw [VCT.deserialize] at hok
    rw [if_pos hg] at hok
    simp at hok
  · rw [VCT.deserialize] at hok ⊢
    rw [if_neg hg] at hok ⊢
    by_cases h2 : (deserializeLoop (t.table_id == TID_CVCT) tbl.sections
        { t with is_valid := false, protocol_version := 0, transport_stream_id := 0,
                 descs := [], channels := [] }).2 = true
    · have hlast := deserializeLoop_last (t.table_id == TID_CVCT) ss slast
        { t with is_valid := false, protocol_version := 0, transport_stream_id := 0,
                 descs := [], channels := [] } (by rw [← hsec]; exact h2)
      rw [hsec] at h2 ⊢
      simp only [h2, if_true]
      exact hlast
    · exfalso
      simp only [Bool.not_eq_true] at h2
      simp only [h2, Bool.false_eq_true, if_false] at hok
      rw [deserializeLoop_is_valid] at hok
      simp at hok

/-- Witness for C7_shared_fields_last_section_wins at the zero-channel
one-section table: the entity takes version 9, current flag false and
table-id extension 0x42 from that (single, hence last) section. -/
theorem C7_shared_fields_last_section_wins_witness :
    zeroChanTable.sections = [] ++ [zeroChanSect] ∧
    (VCT.deserialize freshTVCT zeroChanTable).is_valid = true ∧
    ((VCT.deserialize freshTVCT zeroChanTable).version = zeroChanSect.version ∧
     (VCT.deserialize freshTVCT zeroChanTable).is_current = zeroChanSect.is_current ∧
     (VCT.deserialize freshTVCT zeroChanTable).transport_stream_id = zeroChanSect.tid_ext) :=
  ⟨rfl, by decide,
   C7_shared_fields_last_section_wins freshTVCT zeroChanTable [] zeroChanSect rfl (by decide)⟩

/-- C8: for the AC-3 descriptor with its four one-byte optional fields and
empty additional data, every one of the 16 presence combinations serializes
to a payload of length 1 (presence bitmask) plus the number of present
fields, and deserializing that encoding — into any prior entity — restores
exactly the same presence combination and field values with validity
true. -/
theorem C8_optional_field_bitmask_roundtrip (c bb mm aa : Bool) (vc vb vm va : Nat)
    (hc : vc < 256) (hb : vb < 256) (hm : vm < 256) (ha : va < 256) :
    (AC3Descriptor.serialize ⟨if c then some vc else none, if bb then some vb else none,
        if mm then some vm else none, if aa then some va else none, [], true⟩).payloadSize
      = 1 + ((if c then 1 else 0) + (if bb then 1 else 0) +
             (if mm then 1 else 0) + (if aa then 1 else 0)) ∧
    ∀ prior : AC3Descriptor,
      AC3Descriptor.deserialize prior
          (AC3Descriptor.serialize ⟨if c then some vc else none, if bb then some vb else none,
            if mm then some vm else none, if aa then some va else none, [], true⟩)
        = ⟨if c then some vc else none, if bb then some vb else none,
           if mm then some vm else none, if aa then some va else none, [], true⟩ := by
  constructor
  · cases c <;> cases bb <;> cases mm <;> cases aa <;>
      simp [AC3Descriptor.serialize, Descriptor.payloadSize, put8]
  · intro prior
    cases c <;> cases bb <;> cases mm <;> cases aa <;>
      simp [AC3Descriptor.serialize, AC3Descriptor.deserialize, readOptField,
        Descriptor.isValid, Descriptor.tag, Descriptor.payload, Descriptor.payloadSize,
        get8, put8, DID_AC3, Nat.mod_eq_of_lt hc, Nat.mod_eq_of_lt hb,
        Nat.mod_eq_of_lt hm, Nat.mod_eq_of_lt ha,
        (by decide : Nat.land 240 128 = 128),
        (by decide : Nat.land 240 64 = 64),
        (by decide : Nat.land 240 32 = 32),
        (by decide : Nat.land 240 16 = 16),
        (by decide : Nat.land 224 128 = 128),
        (by decide : Nat.land 224 64 = 64),
        (by decide : Nat.land 224 32 = 32),
        (by decide : Nat.land 224 16 = 0),
        (by decide : Nat.land 208 128 = 128),
        (by decide : Nat.land 208 64 = 64),
        (by decide : Nat.land 208 32 = 0),
        (by decide : Nat.land 208 16 = 16),
        (by decide : Nat.land 192 128 = 128),
        (by decide : Nat.land 192 64 = 64),
        (by decide : Nat.land 192 32 = 0),
        (by decide : Nat.land 192 16 = 0),
        (by decide : Nat.land 176 128 = 128),
        (by decide : Nat.land 176 64 = 0),
        (by decide : Nat.land 176 32 = 32),
        (by decide : Nat.land 176 16 = 16),
        (by decide : Nat.land 160 128 = 128),
        (by decide : Nat.land 160 64 = 0),
        (by decide : Nat.land 160 32 = 32),
        (by decide : Nat.land 160 16 = 0),
        (by decide : Nat.land 144 128 = 128),
        (by decide : Nat.land 144 64 = 0),
        (by decide : Nat.land 144 32 = 0),
        (by decide : Nat.land 144 16 = 16),
        (by decide : Nat.land 128 128 = 128),
        (by decide : Nat.land 128 64 = 0),
        (by decide : Nat.land 128 32 = 0),
        (by decide : Nat.land 128 16 = 0),
        (by decide : Nat.land 112 128 = 0),
        (by decide : Nat.land 112 64 = 64),
        (by decide : Nat.land 112 32 = 32),
        (by decide : Nat.land 112 16 = 16),
        (by decide : Nat.land 96 128 = 0),
        (by decide : Nat.land 96 64 = 64),
        (by decide : Nat.land 96 32 = 32),
        (by decide : Nat.land 96 16 = 0),
        (by decide : Nat.land 80 128 = 0),
        (by decide : Nat.land 80 64 = 64),
        (by decide : Nat.land 80 32 = 0),
        (by decide : Nat.land 80 16 = 16),
        (by decide : Nat.land 64 128 = 0),
        (by decide : Nat.land 64 64 = 64),
        (by decide : Nat.land 64 32 = 0),
        (by decide : Nat.land 64 16 = 0),
        (by decide : Nat.land 48 128 = 0),
        (by decide : Nat.land 48 64 = 0),
        (by decide : Nat.land 48 32 = 32),
        (by decide : Nat.land 48 16 = 16),
        (by decide : Nat.land 32 128 = 0),
        (by decide : Nat.land 32 64 = 0),
        (by decide : Nat.land 32 32 = 32),
        (by decide : Nat.land 32 16 = 0),
        (by decide : Nat.land 16 128 = 0),
        (by decide : Nat.land 16 64 = 0),
        (by decide : Nat.land 16 32 = 0),
        (by decide : Nat.land 16 16 = 16),
        (by decide : Nat.land 0 128 = 0),
        (by decide : Nat.land 0 64 = 0),
        (by decide : Nat.land 0 32 = 0),
        (by decide : Nat.land 0 16 = 0)]

/-- Witness for C8_optional_field_bitmask_roundtrip at the combination
(present, absent, present, absent) with values 1 and 255. -/
theorem C8_optional_field_bitmask_roundtrip_witness :
    ((1 : Nat) < 256 ∧ (0 : Nat) < 256 ∧ (255 : Nat) < 256) ∧
    (AC3Descriptor.serialize ⟨some 1, none, some 255, none, [], true⟩).payloadSize = 1 + 2 ∧
    AC3Descriptor.deserialize AC3Descriptor.default
        (AC3Descriptor.serialize ⟨some 1, none, some 255, none, [], true⟩)
      = ⟨some 1, none, some 255, none, [], true⟩ :=
  ⟨⟨by decide, by decide, by decide⟩,
   (C8_optional_field_bitmask_roundtrip true false true false 1 0 255 0
      (by decide) (by decide) (by decide) (by decide)).1,
   (C8_optional_field_bitmask_roundtrip true false true false 1 0 255 0
      (by decide) (by decide) (by decide) (by decide)).2 AC3Descriptor.default⟩

end TSDuck
